import Mathlib

/-
  Verification development for the kiwi.js incremental Cassowary solver
  (sources under src/src/: strength.ts, variable.ts, constraint.ts, row.ts,
  solver.ts).  JavaScript numbers are modelled as exact rationals; the
  epsilon tests of the code are kept explicit.  The repository contains two
  generations of some components (an original solver with its own embedded
  Row class at the bottom of solver.ts, and a refactored Row in row.ts plus
  a refactored marker-leaving routine at solver.ts:619-643); where the two
  differ, both are embedded under distinct names and compared.
-/

set_option autoImplicit false

namespace Kiwi

/-- Embeds `nearZero` (solver.ts:1472-1475, row.ts:8-11): epsilon is 1.0e-8. -/
def eps : ℚ := 1 / 100000000

/-- Embeds `nearZero value`: `value < 0 ? -value < eps : value < eps`. -/
def nearZero (value : ℚ) : Bool :=
  if value < 0 then -value < eps else value < eps

/-- Embeds `ISymbolType` (solver.ts:1538-1544). -/
inductive SymType where
  | invalid
  | external
  | slack
  | error
  | dummy
deriving DecidableEq, Repr

/-- Embeds `ISymbol` (solver.ts:1550-1568): a type tag and a unique id. -/
structure Sym where
  type : SymType
  id : ℤ
deriving DecidableEq, Repr

/-- Embeds `INVALID_SYMBOL` (solver.ts:1574): type Invalid, id -1. -/
def INVALID : Sym := ⟨SymType.invalid, -1⟩

/-- Modelled from the spec: `maptype.ts` is not under src/, so the ordered
map container is modelled from the spec's data model ("mapping ... ordered
by id", §3; "all maps are ordered by monotonic id, and iteration order is
used for tie-breaks", §5).  An association list kept sorted by a numeric
key; `find` by key. -/
def findBy {α β : Type} (key : α → ℤ) (k : ℤ) : List (α × β) → Option β
  | [] => none
  | (a, b) :: rest => if key a = k then some b else findBy key k rest

/-- Modelled from the spec: ordered-map `erase` — remove the entry whose key
matches, keeping the rest in order. -/
def eraseBy {α β : Type} (key : α → ℤ) (k : ℤ) : List (α × β) → List (α × β)
  | [] => []
  | (a, b) :: rest => if key a = k then rest else (a, b) :: eraseBy key k rest

/-- Modelled from the spec: ordered-map `insert` — overwrite an existing
entry or insert a fresh one at its sorted position. -/
def insertBy {α β : Type} (key : α → ℤ) (k : α) (v : β) : List (α × β) → List (α × β)
  | [] => [(k, v)]
  | (a, b) :: rest =>
    if key k < key a then (k, v) :: (a, b) :: rest
    else if key k = key a then (k, v) :: rest
    else (a, b) :: insertBy key k v rest

/-- Cells of a row: coefficients keyed by symbol, ordered by symbol id
(`createMap<ISymbol, number>(ISymbol.Compare)`). -/
abbrev Cells := List (Sym × ℚ)

/-- Embeds the `Row` class (solver.ts:1580-1746): a rational constant and
the cell map. -/
structure Row where
  constant : ℚ
  cells : Cells
deriving DecidableEq, Repr

namespace Row

/-- Embeds `Row.coefficientFor` (solver.ts:1724-1727): the cell's value, or
0 if the symbol is absent. -/
def coefficientFor (r : Row) (s : Sym) : ℚ :=
  (findBy Sym.id s.id r.cells).getD 0

/-- Embeds `Row.isConstant` (solver.ts:1596-1598): no cells. -/
def isConstant (r : Row) : Bool :=
  r.cells.isEmpty

/-- Embeds `Row.allDummies` (solver.ts:1603-1612): every cell's symbol has
type Dummy; true for an empty cell map. -/
def allDummies (r : Row) : Bool :=
  r.cells.all fun p => p.1.type = SymType.dummy

/-- Embeds `Row.allDummies` from the refactored row.ts:34-38:
`cells.map(pair => pair.first.type === Dummy).reduce((a, b) => a && b)`.
JavaScript's `reduce` with no initial value throws a TypeError on an empty
array, modelled as `none`. -/
def allDummiesRowTs (r : Row) : Option Bool :=
  match r.cells.map (fun p => decide (p.1.type = SymType.dummy)) with
  | [] => none
  | b :: bs => some (bs.foldl (fun a c => a && c) b)

/-- Embeds `Row.insertISymbol` (solver.ts:1639-1644): `setDefault` the cell
to 0, add the coefficient to it, and erase the cell if the resulting value
is near zero. -/
def insertSymbol (r : Row) (s : Sym) (c : ℚ) : Row :=
  let newCoeff := (findBy Sym.id s.id r.cells).getD 0 + c
  if nearZero newCoeff then ⟨r.constant, eraseBy Sym.id s.id r.cells⟩
  else ⟨r.constant, insertBy Sym.id s newCoeff r.cells⟩

/-- Embeds `Row.insertISymbol` from the refactored row.ts:65-68:
`pair = cells.setDefault(symbol, coefficient); if (nearZero(pair.second))
cells.erase(symbol)`.  The coefficient is only stored when the symbol is
absent; an existing cell keeps its old value (nothing is added to it), and
the erase test looks at that stored value, not at a sum. -/
def insertSymbolRowTs (r : Row) (s : Sym) (c : ℚ) : Row :=
  let stored := (findBy Sym.id s.id r.cells).getD c
  let cs :=
    match findBy Sym.id s.id r.cells with
    | some _ => r.cells
    | none => insertBy Sym.id s c r.cells
  if nearZero stored then ⟨r.constant, eraseBy Sym.id s.id cs⟩
  else ⟨r.constant, cs⟩

/-- Embeds `Row.insertRow` (solver.ts:1654-1661): add the scaled constant,
then insert each scaled cell in iteration order. -/
def insertRow (r : Row) (other : Row) (c : ℚ) : Row :=
  other.cells.foldl (fun acc p => acc.insertSymbol p.1 (p.2 * c))
    ⟨r.constant + other.constant * c, r.cells⟩

/-- Embeds `Row.removeISymbol` (solver.ts:1666-1668). -/
def removeSymbol (r : Row) (s : Sym) : Row :=
  ⟨r.constant, eraseBy Sym.id s.id r.cells⟩

/-- Embeds `Row.reverseSign` (solver.ts:1673-1680): negate the constant and
every coefficient in place. -/
def reverseSign (r : Row) : Row :=
  ⟨-r.constant, r.cells.map fun p => (p.1, -p.2)⟩

/-- Embeds `Row.solveFor` (solver.ts:1694-1702): erase the target cell and
multiply the constant and every remaining coefficient by the negative
inverse of its coefficient (no near-zero erasure happens here).  The symbol
must exist in the row; its absence is a crash in the source (`pair.second`
of `undefined`), modelled as `none`. -/
def solveFor (r : Row) (s : Sym) : Option Row :=
  match findBy Sym.id s.id r.cells with
  | none => none
  | some k =>
    let m := -1 / k
    some ⟨r.constant * m, (eraseBy Sym.id s.id r.cells).map fun p => (p.1, p.2 * m)⟩

/-- Embeds `Row.solveForEx` (solver.ts:1716-1719): insert the lhs with
coefficient -1, then solve for the rhs. -/
def solveForEx (r : Row) (lhs rhs : Sym) : Option Row :=
  (r.insertSymbol lhs (-1)).solveFor rhs

/-- Embeds `Row.substitute` (solver.ts:1738-1743): if the symbol is present
with coefficient c, erase it and insert the given row scaled by c. -/
def substitute (r : Row) (s : Sym) (other : Row) : Row :=
  match findBy Sym.id s.id r.cells with
  | none => r
  | some c => Row.insertRow ⟨r.constant, eraseBy Sym.id s.id r.cells⟩ other c

end Row

/-- Embeds `Strength.create` (strength.ts:22-28): each component is clipped
to [0,1000] after weighting, then combined in base 1000. -/
def Strength.create (a b c w : ℚ) : ℚ :=
  max 0 (min 1000 (a * w)) * 1000000
    + max 0 (min 1000 (b * w)) * 1000
    + max 0 (min 1000 (c * w))

/-- Embeds `Strength.required` (strength.ts:33). -/
def Strength.required : ℚ := Strength.create 1000 1000 1000 1

/-- Embeds `Strength.strong` (strength.ts:38). -/
def Strength.strong : ℚ := Strength.create 1 0 0 1

/-- Embeds `Strength.medium` (strength.ts:43). -/
def Strength.medium : ℚ := Strength.create 0 1 0 1

/-- Embeds `Strength.weak` (strength.ts:48). -/
def Strength.weak : ℚ := Strength.create 0 0 1 1

/-- Embeds `Strength.clip` (strength.ts:54-56): restrict to [0, required]. -/
def Strength.clip (value : ℚ) : ℚ :=
  max 0 (min Strength.required value)

/-- A user variable (variable.ts): only its stable id matters to the
algebra; its mutable `value` field is modelled as an explicit valuation
where it is read. -/
structure Variable where
  id : ℤ
deriving DecidableEq, Repr

/-- Embeds `Expression` (constraint.ts chunk for expression.ts): a constant
plus a term map from variable to coefficient, ordered by variable id. -/
structure Expression where
  constant : ℚ
  terms : List (Variable × ℚ)
deriving DecidableEq, Repr

/-- Embeds `Expression.isConstant` (constraint.ts:177-179):
`terms.size() === 0`. -/
def Expression.isConstant (e : Expression) : Bool :=
  e.terms.isEmpty

/-- Embeds the `Expression.value` getter (constraint.ts:129-133):
`constant + terms.map(p => p.first.value * p.second).reduce((a, b) => a + b)`.
`reduce` with no initial value throws on an empty terms array, modelled as
`none`.  `vals` gives each variable's current `value` field. -/
def Expression.value (e : Expression) (vals : ℤ → ℚ) : Option ℚ :=
  match e.terms.map (fun p => vals p.1.id * p.2) with
  | [] => none
  | x :: xs => some (e.constant + xs.foldl (· + ·) x)

/-- An argument to the variadic `Expression` constructor (constraint.ts
doc: number, Variable, Expression, or a 2-tuple `[number, Variable]` /
`[number, Expression]`). -/
inductive ExprArg where
  | num (q : ℚ)
  | var (v : Variable)
  | expr (e : Expression)
  | pairVar (q : ℚ) (v : Variable)
  | pairExpr (q : ℚ) (e : Expression)
deriving DecidableEq, Repr

/-- Modelled from the spec plus the surviving call sites: `setDefault` of the
missing maptype.ts returns the existing entry when the key is present and
only inserts the supplied default when it is absent (solver.ts:1640 relies on
exactly this).  Specialised to term maps keyed by variable id. -/
def termsSetDefault (ts : List (Variable × ℚ)) (v : Variable) (c : ℚ) :
    List (Variable × ℚ) :=
  match findBy Variable.id v.id ts with
  | some _ => ts
  | none => insertBy Variable.id v c ts

/-- Embeds one step of `parseArgs` (constraint.ts:207-260) over an already
well-formed argument.  A number adds to the constant; a variable does
`terms.setDefault(item, () => 1.0)`; an expression adds its constant and
`setDefault`s each of its terms; a pair scales before the same treatment. -/
def parseArgsStep (acc : ℚ × List (Variable × ℚ)) (arg : ExprArg) :
    ℚ × List (Variable × ℚ) :=
  match arg with
  | .num q => (acc.1 + q, acc.2)
  | .var v => (acc.1, termsSetDefault acc.2 v 1)
  | .expr e =>
    (acc.1 + e.constant,
      e.terms.foldl (fun ts p => termsSetDefault ts p.1 p.2) acc.2)
  | .pairVar q v => (acc.1, termsSetDefault acc.2 v q)
  | .pairExpr q e =>
    (acc.1 + e.constant * q,
      e.terms.foldl (fun ts p => termsSetDefault ts p.1 (p.2 * q)) acc.2)

/-- Embeds `parseArgs` (constraint.ts:207-260): fold the arguments left to
right starting from constant 0 and an empty term map. -/
def parseArgs (args : List ExprArg) : Expression :=
  let r := args.foldl parseArgsStep (0, [])
  ⟨r.1, r.2⟩

/-- Embeds `Operator` (constraint.ts:24-29). -/
inductive Operator where
  | le
  | ge
  | eq
deriving DecidableEq, Repr

/-- Embeds `Constraint` (constraint.ts:43-78): an expression asserted
`<relation> 0`, a clipped strength, and a stable id. -/
structure Constraint where
  id : ℤ
  operator : Operator
  expression : Expression
  strength : ℚ
deriving DecidableEq, Repr

/-- Embeds the `ITag` interface (solver.ts:723-726): the marker and other
symbols recorded per admitted constraint. -/
structure Tag where
  marker : Sym
  other : Sym
deriving DecidableEq, Repr

/-- Embeds the `IEditInfo` interface (solver.ts:731-735). -/
structure EditInfo where
  tag : Tag
  constraint : Constraint
  constant : ℚ
deriving DecidableEq, Repr

/-- The solver's mutable fields (solver.ts:701-708): the constraint
registry, the basis rows, the variable-to-symbol map, the edit registry,
the pending infeasible-row list, the objective row, the transient
artificial row, and the symbol id counter. -/
structure State where
  constraints : List (Constraint × Tag)
  rows : List (Sym × Row)
  vars : List (Variable × Sym)
  edits : List (Variable × EditInfo)
  infeasible : List Sym
  objective : Row
  artificial : Option Row
  idTick : ℤ
deriving DecidableEq, Repr

/-- A freshly constructed solver: everything empty, objective the zero row. -/
def initState : State :=
  ⟨[], [], [], [], [], ⟨0, []⟩, none, 0⟩

/-- The typed failures of the solver (spec §7).  `jsCrash` models a raw
JavaScript TypeError (e.g. `solveFor` on an absent symbol); `outOfFuel`
models non-termination of the unbounded `while` loops within the given
fuel.  Both are distinct from every typed error the code throws. -/
inductive Err where
  | duplicateConstraint
  | unknownConstraint
  | unsatisfiableConstraint
  | duplicateEditVariable
  | unknownEditVariable
  | badRequiredStrength
  | unboundedObjective
  | failedLeavingRow
  | dualOptimizeFailed
  | jsCrash
  | outOfFuel
deriving DecidableEq, Repr

/-- The outcome of a solver operation.  The solver object is mutated in
place by the source, so a thrown error still leaves the partially mutated
state behind; `err` therefore carries the state at the throw site. -/
inductive Res (α : Type) where
  | ok (a : α) (s : State)
  | err (e : Err) (s : State)
deriving DecidableEq, Repr

/-- Embeds `Solver._makeISymbol` (solver.ts:697-699): a fresh symbol of the
given type, bumping the id counter. -/
def makeSymbol (t : SymType) (s : State) : Sym × State :=
  (⟨t, s.idTick⟩, { s with idTick := s.idTick + 1 })

/-- Embeds `Solver._getVarISymbol` (solver.ts:259-262): a fresh external
symbol is always created (bumping the counter) and then `setDefault`
returns the existing symbol if the variable is already registered. -/
def getVarSymbol (v : Variable) (s : State) : Sym × State :=
  let p := makeSymbol SymType.external s
  match findBy Variable.id v.id p.2.vars with
  | some t => (t, p.2)
  | none => (p.1, { p.2 with vars := insertBy Variable.id v p.1 p.2.vars })

/-- One term of the `_createRow` loop (solver.ts:287-298): skip near-zero
coefficients; substitute the basic row for the variable's symbol if it is
basic, else insert the symbol. -/
def buildTerm (acc : Row × State) (p : Variable × ℚ) : Row × State :=
  if nearZero p.2 then acc
  else
    let q := getVarSymbol p.1 acc.2
    match findBy Sym.id q.1.id q.2.rows with
    | some basicRow => (acc.1.insertRow basicRow p.2, q.2)
    | none => (acc.1.insertSymbol q.1 p.2, q.2)

/-- The final sign normalisation of `_createRow` (solver.ts:341-343):
reverse the row if its constant is negative. -/
def normalizeRow (r : Row) : Row :=
  if r.constant < 0 then r.reverseSign else r

/-- Embeds `Solver._createRow` (solver.ts:281-346): build the row from the
constraint's expression, add the slack/error/dummy symbols for the
relation and strength (updating the objective for non-required
constraints), and normalise the sign.  Returns the updated state, the row,
and the constraint's tag. -/
def createRow (cn : Constraint) (s : State) : State × Row × Tag :=
  let base := cn.expression.terms.foldl buildTerm (⟨cn.expression.constant, []⟩, s)
  match cn.operator with
  | Operator.le | Operator.ge =>
    let coeff : ℚ := if cn.operator = Operator.le then 1 else -1
    let sl := makeSymbol SymType.slack base.2
    let row1 := base.1.insertSymbol sl.1 coeff
    if cn.strength < Strength.required then
      let er := makeSymbol SymType.error sl.2
      let row2 := row1.insertSymbol er.1 (-coeff)
      let s2 := { er.2 with objective := er.2.objective.insertSymbol er.1 cn.strength }
      (s2, normalizeRow row2, ⟨sl.1, er.1⟩)
    else
      (sl.2, normalizeRow row1, ⟨sl.1, INVALID⟩)
  | Operator.eq =>
    if cn.strength < Strength.required then
      let ep := makeSymbol SymType.error base.2
      let em := makeSymbol SymType.error ep.2
      let row1 := (base.1.insertSymbol ep.1 (-1)).insertSymbol em.1 1
      let s2 := { em.2 with
        objective := (em.2.objective.insertSymbol ep.1 cn.strength).insertSymbol em.1 cn.strength }
      (s2, normalizeRow row1, ⟨ep.1, em.1⟩)
    else
      let d := makeSymbol SymType.dummy base.2
      (d.2, normalizeRow (base.1.insertSymbol d.1 1), ⟨d.1, INVALID⟩)

/-- Embeds `Solver._chooseSubject` (solver.ts:364-385): the first external
cell; else the marker if it is a slack/error with negative coefficient;
else the same test for the other; else the invalid symbol. -/
def chooseSubject (row : Row) (tag : Tag) : Sym :=
  match row.cells.find? (fun p => p.1.type = SymType.external) with
  | some p => p.1
  | none =>
    if (tag.marker.type = SymType.slack ∨ tag.marker.type = SymType.error)
        ∧ row.coefficientFor tag.marker < 0 then tag.marker
    else if (tag.other.type = SymType.slack ∨ tag.other.type = SymType.error)
        ∧ row.coefficientFor tag.other < 0 then tag.other
    else INVALID

/-- Embeds `Solver._substitute` (solver.ts:440-454): substitute the symbol
in every row (pushing non-external rows whose constant became negative onto
the infeasible list, in iteration order), in the objective, and in the
artificial row if it is live. -/
def substituteState (sym : Sym) (row : Row) (s : State) : State :=
  let newRows := s.rows.map fun p => (p.1, p.2.substitute sym row)
  let pushes := (newRows.filter fun p =>
    p.2.constant < 0 ∧ p.1.type ≠ SymType.external).map Prod.fst
  { s with
    rows := newRows
    infeasible := s.infeasible ++ pushes
    objective := s.objective.substitute sym row
    artificial := s.artificial.map fun a => a.substitute sym row }

/-- Embeds `Solver._getEnteringISymbol` (solver.ts:523-533): the first cell
of the objective with negative coefficient and non-dummy symbol. -/
def getEntering (objective : Row) : Sym :=
  match objective.cells.find? (fun p => p.2 < 0 ∧ p.1.type ≠ SymType.dummy) with
  | some p => p.1
  | none => INVALID

/-- Embeds `Solver._getLeavingISymbol` (solver.ts:576-596): among
non-external basic rows with a negative coefficient for the entering
symbol, the one strictly minimising `-constant / coefficient`, scanning in
row order.  The `Number.MAX_VALUE` sentinel is modelled as `none`. -/
def getLeaving (entering : Sym) (s : State) : Sym :=
  (s.rows.foldl
    (fun acc p =>
      if p.1.type = SymType.external then acc
      else
        let temp := p.2.coefficientFor entering
        if temp < 0 then
          let tr := -p.2.constant / temp
          match acc.1 with
          | none => (some tr, p.1)
          | some best => if tr < best then (some tr, p.1) else acc
        else acc)
    ((none : Option ℚ), INVALID)).2

/-- Embeds `Solver._getDualEnteringISymbol` (solver.ts:546-564): among the
row's cells with positive coefficient and non-dummy symbol, the one
strictly minimising `objective[s] / c`. -/
def getDualEntering (row : Row) (s : State) : Sym :=
  (row.cells.foldl
    (fun acc p =>
      if 0 < p.2 ∧ p.1.type ≠ SymType.dummy then
        let r := s.objective.coefficientFor p.1 / p.2
        match acc.1 with
        | none => (some r, p.1)
        | some best => if r < best then (some r, p.1) else acc
      else acc)
    ((none : Option ℚ), INVALID)).2

/-- Embeds `Solver._anyPivotableISymbol` (solver.ts:680-690): the first
slack or error cell of the row. -/
def anyPivotable (row : Row) : Sym :=
  match row.cells.find? (fun p =>
    p.1.type = SymType.slack ∨ p.1.type = SymType.error) with
  | some p => p.1
  | none => INVALID

/-- The two rows `_optimize` can be pointed at: `this.objective` or the
live `this._artificial` (solver.ts:402 passes the artificial row by
reference, so substitutions during the loop are visible to it). -/
inductive OptTarget where
  | objective
  | artificial
deriving DecidableEq, Repr

/-- Read the current optimization target row out of the state. -/
def readTarget (t : OptTarget) (s : State) : Option Row :=
  match t with
  | OptTarget.objective => some s.objective
  | OptTarget.artificial => s.artificial

/-- Embeds `Solver._optimize` (solver.ts:464-480): repeatedly pick an
entering symbol from the target row, a leaving basic row, and pivot, until
no entering symbol remains (done) or no leaving row exists (the objective
is unbounded).  The unbounded `while` is given explicit fuel. -/
def optimize (t : OptTarget) : ℕ → State → Res Unit
  | 0, s => Res.err Err.outOfFuel s
  | fuel + 1, s =>
    match readTarget t s with
    | none => Res.err Err.jsCrash s
    | some target =>
      let entering := getEntering target
      if entering.type = SymType.invalid then Res.ok () s
      else
        let leaving := getLeaving entering s
        if leaving.type = SymType.invalid then Res.err Err.unboundedObjective s
        else
          match findBy Sym.id leaving.id s.rows with
          | none => Res.err Err.jsCrash s
          | some row =>
            let s1 := { s with rows := eraseBy Sym.id leaving.id s.rows }
            match row.solveForEx leaving entering with
            | none => Res.err Err.jsCrash s1
            | some row2 =>
              let s2 := substituteState entering row2 s1
              optimize t fuel { s2 with rows := insertBy Sym.id entering row2 s2.rows }

/-- Embeds `Solver._dualOptimize` (solver.ts:492-511): drain the
infeasible list (a stack: push at the end, pop from the end), pivoting
each still-infeasible basic row with its dual entering symbol. -/
def dualOptimize : ℕ → State → Res Unit
  | 0, s => Res.err Err.outOfFuel s
  | fuel + 1, s =>
    match s.infeasible.getLast? with
    | none => Res.ok () s
    | some leaving =>
      let s1 := { s with infeasible := s.infeasible.dropLast }
      match findBy Sym.id leaving.id s1.rows with
      | none => dualOptimize fuel s1
      | some row =>
        if row.constant < 0 then
          let entering := getDualEntering row s1
          if entering.type = SymType.invalid then Res.err Err.dualOptimizeFailed s1
          else
            let s2 := { s1 with rows := eraseBy Sym.id leaving.id s1.rows }
            match row.solveForEx leaving entering with
            | none => Res.err Err.jsCrash s2
            | some row2 =>
              let s3 := substituteState entering row2 s2
              dualOptimize fuel { s3 with rows := insertBy Sym.id entering row2 s3.rows }
        else dualOptimize fuel s1

/-- The cleanup loop at the end of `_addWithArtificialVariable`
(solver.ts:424-428): remove the artificial symbol from every row and from
the objective. -/
def removeArtEverywhere (art : Sym) (s : State) : State :=
  { s with
    rows := s.rows.map fun p => (p.1, p.2.removeSymbol art)
    objective := s.objective.removeSymbol art }

/-- Embeds `Solver._addWithArtificialVariable` (solver.ts:394-430): insert
a copy of the row under a fresh slack symbol, optimize the retained
artificial copy, test its constant against epsilon, and if the artificial
symbol is still basic pivot it out (returning early — without the final
cleanup — when the basic row is constant, and returning false when no
pivotable symbol exists in it). -/
def addWithArtificial (row : Row) (fuel : ℕ) (s : State) : Res Bool :=
  let a := makeSymbol SymType.slack s
  let art := a.1
  let s1 := { a.2 with
    rows := insertBy Sym.id art row a.2.rows
    artificial := some row }
  match optimize OptTarget.artificial fuel s1 with
  | Res.err e s2 => Res.err e s2
  | Res.ok _ s2 =>
    match s2.artificial with
    | none => Res.err Err.jsCrash s2
    | some artRow =>
      let success := nearZero artRow.constant
      let s3 := { s2 with artificial := none }
      match findBy Sym.id art.id s3.rows with
      | none => Res.ok success (removeArtEverywhere art s3)
      | some basicRow =>
        let s4 := { s3 with rows := eraseBy Sym.id art.id s3.rows }
        if basicRow.isConstant then Res.ok success s4
        else
          let entering := anyPivotable basicRow
          if entering.type = SymType.invalid then Res.ok false s4
          else
            match basicRow.solveForEx art entering with
            | none => Res.err Err.jsCrash s4
            | some br2 =>
              let s5 := substituteState entering br2 s4
              let s6 := { s5 with rows := insertBy Sym.id entering br2 s5.rows }
              Res.ok success (removeArtEverywhere art s6)

/-- The normal-subject tail of `addConstraint` (solver.ts:83-85): solve the
row for the subject, substitute it through the tableau, and insert it as a
basic row. -/
def afterSubject (row : Row) (subj : Sym) (s : State) : Res Unit :=
  match row.solveFor subj with
  | none => Res.err Err.jsCrash s
  | some row2 =>
    let s1 := substituteState subj row2 s
    Res.ok () { s1 with rows := insertBy Sym.id subj row2 s1.rows }

/-- The common tail of `addConstraint` (solver.ts:88-93): record the
constraint's tag and re-optimize the objective. -/
def finishAdd (cn : Constraint) (tag : Tag) (fuel : ℕ) : Res Unit → Res Unit
  | Res.err e s => Res.err e s
  | Res.ok _ s =>
    optimize OptTarget.objective fuel
      { s with constraints := insertBy Constraint.id cn tag s.constraints }

/-- Embeds `Solver.addConstraint` (solver.ts:47-94): reject duplicates,
build the row and tag, choose a subject (falling back to the all-dummies
check and then to artificial admission), pivot the row in, record the tag,
and optimize. -/
def addConstraint (cn : Constraint) (fuel : ℕ) (s : State) : Res Unit :=
  match findBy Constraint.id cn.id s.constraints with
  | some _ => Res.err Err.duplicateConstraint s
  | none =>
    let p := createRow cn s
    let s1 := p.1
    let row := p.2.1
    let tag := p.2.2
    let subject0 := chooseSubject row tag
    if subject0.type = SymType.invalid ∧ row.allDummies = true
        ∧ nearZero row.constant = false then
      Res.err Err.unsatisfiableConstraint s1
    else
      let subject :=
        if subject0.type = SymType.invalid ∧ row.allDummies = true
        then tag.marker else subject0
      if subject.type = SymType.invalid then
        match addWithArtificial row fuel s1 with
        | Res.err e s2 => Res.err e s2
        | Res.ok success s2 =>
          if success then finishAdd cn tag fuel (Res.ok () s2)
          else Res.err Err.unsatisfiableConstraint s2
      else finishAdd cn tag fuel (afterSubject row subject s1)

/-- The row scan of `Solver._getMarkerLeavingISymbol` (solver.ts:1369-1392,
the original version), carrying the best tier-1 ratio/symbol, the best
tier-2 ratio/symbol, and the last external row seen.  The
`Number.MAX_VALUE` sentinels are modelled as `none`. -/
def markerLeavingLoop (marker : Sym) :
    List (Sym × Row) → Option ℚ → Sym → Option ℚ → Sym → Sym → Sym
  | [], _, first, _, second, third =>
    if first ≠ INVALID then first
    else if second ≠ INVALID then second
    else third
  | p :: rest, r1, first, r2, second, third =>
    let c := p.2.coefficientFor marker
    if c = 0 then markerLeavingLoop marker rest r1 first r2 second third
    else if p.1.type = SymType.external then
      markerLeavingLoop marker rest r1 first r2 second p.1
    else if c < 0 then
      let rt := -p.2.constant / c
      match r1 with
      | none => markerLeavingLoop marker rest (some rt) p.1 r2 second third
      | some best =>
        if rt < best then markerLeavingLoop marker rest (some rt) p.1 r2 second third
        else markerLeavingLoop marker rest r1 first r2 second third
    else
      let rt := p.2.constant / c
      match r2 with
      | none => markerLeavingLoop marker rest r1 first (some rt) p.1 third
      | some best =>
        if rt < best then markerLeavingLoop marker rest r1 first (some rt) p.1 third
        else markerLeavingLoop marker rest r1 first r2 second third

/-- Embeds `Solver._getMarkerLeavingISymbol` as written at
solver.ts:1360-1400 (the original version): tier 1 minimises
`-constant / c` over restricted rows with `c < 0`, tier 2 minimises
`constant / c` over restricted rows with `c > 0`, tier 3 is the last
external row containing the marker. -/
def getMarkerLeaving (marker : Sym) (s : State) : Sym :=
  markerLeavingLoop marker s.rows none INVALID none INVALID INVALID

/-- The row scan of the refactored `_getMarkerLeavingISymbol`
(solver.ts:624-640): the ratio is `Math.abs(constant) / c`, computed
*before* the sign of `c` is examined, and the two sign cases are two
independent `if` statements (disjoint since `c ≠ 0`).  `null` candidates
are modelled as `none`. -/
def markerLeavingLoopV1 (marker : Sym) :
    List (Sym × Row) → Option ℚ → Option Sym → Option ℚ → Option Sym → Option Sym → Sym
  | [], _, first, _, second, third =>
    ((first.orElse fun _ => (second.orElse fun _ => third)).getD INVALID)
  | p :: rest, r1, first, r2, second, third =>
    let c := p.2.coefficientFor marker
    if c = 0 then markerLeavingLoopV1 marker rest r1 first r2 second third
    else
      let rt := (if p.2.constant < 0 then -p.2.constant else p.2.constant) / c
      if p.1.type = SymType.external then
        markerLeavingLoopV1 marker rest r1 first r2 second (some p.1)
      else
        let u1 : Option ℚ × Option Sym :=
          if c < 0 then
            match r1 with
            | none => (some rt, some p.1)
            | some best => if rt < best then (some rt, some p.1) else (r1, first)
          else (r1, first)
        let u2 : Option ℚ × Option Sym :=
          if 0 < c then
            match r2 with
            | none => (some rt, some p.1)
            | some best => if rt < best then (some rt, some p.1) else (r2, second)
          else (r2, second)
        markerLeavingLoopV1 marker rest u1.1 u1.2 u2.1 u2.2 third

/-- Embeds `Solver._getMarkerLeavingISymbol` as rewritten at
solver.ts:619-643 (the refactored version): `r = Math.abs(constant) / c`
for both sign cases, result `first || second || third || INVALID`. -/
def getMarkerLeavingV1 (marker : Sym) (s : State) : Sym :=
  markerLeavingLoopV1 marker s.rows none none none none none

/-- Embeds `Solver._removeMarkerEffects` (solver.ts:664-671): subtract the
strength-scaled row (if the marker is basic) or symbol (otherwise) from
the objective. -/
def removeMarkerEffects (marker : Sym) (strength : ℚ) (s : State) : State :=
  match findBy Sym.id marker.id s.rows with
  | some row => { s with objective := s.objective.insertRow row (-strength) }
  | none => { s with objective := s.objective.insertSymbol marker (-strength) }

/-- Embeds `Solver._removeConstraintEffects` (solver.ts:650-657). -/
def removeConstraintEffects (cn : Constraint) (tag : Tag) (s : State) : State :=
  let s1 := if tag.marker.type = SymType.error
    then removeMarkerEffects tag.marker cn.strength s else s
  if tag.other.type = SymType.error
    then removeMarkerEffects tag.other cn.strength s1 else s1

/-- Embeds `Solver.removeConstraint` (solver.ts:101-132): erase the tag,
undo objective effects, drop the marker's row (pivoting the marker into
the basis first if it is not basic, failing if no leaving row exists), and
optimize. -/
def removeConstraint (cn : Constraint) (fuel : ℕ) (s : State) : Res Unit :=
  match findBy Constraint.id cn.id s.constraints with
  | none => Res.err Err.unknownConstraint s
  | some tag =>
    let s1 := { s with constraints := eraseBy Constraint.id cn.id s.constraints }
    let s2 := removeConstraintEffects cn tag s1
    match findBy Sym.id tag.marker.id s2.rows with
    | some _ =>
      optimize OptTarget.objective fuel
        { s2 with rows := eraseBy Sym.id tag.marker.id s2.rows }
    | none =>
      let leaving := getMarkerLeaving tag.marker s2
      if leaving.type = SymType.invalid then Res.err Err.failedLeavingRow s2
      else
        match findBy Sym.id leaving.id s2.rows with
        | none => Res.err Err.jsCrash s2
        | some row =>
          let s3 := { s2 with rows := eraseBy Sym.id leaving.id s2.rows }
          match row.solveForEx leaving tag.marker with
          | none => Res.err Err.jsCrash s3
          | some row2 =>
            optimize OptTarget.objective fuel (substituteState tag.marker row2 s3)

/-- Embeds `Solver.updateVariables` (solver.ts:245-251): each registered
variable is published as the constant of its symbol's basic row, or 0 if
the symbol is not basic. -/
def updateVariables (s : State) : List (Variable × ℚ) :=
  s.vars.map fun p =>
    (p.1, match findBy Sym.id p.2.id s.rows with
      | some r => r.constant
      | none => 0)

/-- The published valuation after `updateVariables`: a variable id maps to
its published value (variables never registered keep their initial 0). -/
def publishedVals (s : State) : ℤ → ℚ :=
  fun vid => (findBy Variable.id vid (updateVariables s)).getD 0

/-- Direct evaluation of a constraint's LHS expression at a valuation:
constant plus the sum of coefficient-scaled variable values. -/
def lhsValue (e : Expression) (vals : ℤ → ℚ) : ℚ :=
  e.constant + (e.terms.map fun p => vals p.1.id * p.2).sum

/-- The spec's satisfaction test (claim C1): the LHS value satisfies the
relation `≤ 0`, `≥ 0`, or `= 0` to within epsilon. -/
def satisfiesRelation (op : Operator) (v : ℚ) : Bool :=
  match op with
  | Operator.le => v ≤ eps
  | Operator.ge => -eps ≤ v
  | Operator.eq => (if v < 0 then -v else v) ≤ eps

/-- The state carried by an operation's result, whether it returned
normally or threw (the solver object survives a throw). -/
def resState : Res Unit → State
  | Res.ok _ s => s
  | Res.err _ s => s

/-- Whether an operation returned normally. -/
def resOk : Res Unit → Bool
  | Res.ok _ _ => true
  | Res.err _ _ => false

/-- The feasibility-invariant check of spec §8.1 (claim C2): is there a
basic row whose basic symbol is not External and whose constant is below
`-eps`? -/
def hasInfeasibleRow (s : State) : Bool :=
  s.rows.any fun p => p.1.type ≠ SymType.external ∧ p.2.constant < -eps

/-- The errors a run of the optimization machinery itself can produce:
modelling artefacts (fuel exhaustion, JavaScript crashes) and the
unbounded-objective error — never one of the admission-decision errors. -/
def benignErr (e : Err) : Prop :=
  e = Err.outOfFuel ∨ e = Err.jsCrash ∨ e = Err.unboundedObjective

/- Concrete scenario for claims C1 and C2: three required constraints over
variables x (id 0) and y (id 1):
  `x ≥ 10`, `y ≥ 10`, and `1e-8·x + y = 10 + 1e-7 - 9.9e-9`.
The equality has no natural subject, so it is admitted through the
artificial-variable procedure; the artificial optimum `9.9e-9` passes the
`nearZero` test while the pivot coefficient `1e-8` survives cell erasure,
so the pivot scales the residue up to `0.99`. -/

/-- The user variable x of the C1/C2 scenario. -/
def xVar : Variable := ⟨0⟩

/-- The user variable y of the C1/C2 scenario. -/
def yVar : Variable := ⟨1⟩

/-- Required constraint `x - 10 ≥ 0`. -/
def feasCn1 : Constraint := ⟨0, Operator.ge, ⟨-10, [(xVar, 1)]⟩, Strength.required⟩

/-- Required constraint `y - 10 ≥ 0`. -/
def feasCn2 : Constraint := ⟨1, Operator.ge, ⟨-10, [(yVar, 1)]⟩, Strength.required⟩

/-- Required constraint `1e-8·x + y - (10 + 1e-7 - 9.9e-9) = 0`. -/
def feasCn3 : Constraint :=
  ⟨2, Operator.eq,
    ⟨-(10 + 1 / 10000000 - 99 / 10000000000), [(xVar, 1 / 100000000), (yVar, 1)]⟩,
    Strength.required⟩

/-- Solver state after admitting `feasCn1`. -/
def feasS1 : State := resState (addConstraint feasCn1 50 initState)

/-- Solver state after admitting `feasCn1, feasCn2`. -/
def feasS2 : State := resState (addConstraint feasCn2 50 feasS1)

/-- Solver state after admitting all three constraints of the C1/C2
scenario. -/
def feasS3 : State := resState (addConstraint feasCn3 50 feasS2)

/- Concrete scenario for claim C7: three constraints over x (id 0):
  `x ≥ 0` required, `2e8·x ≤ 1` required, `x ≥ 5` weak.
Admitting the weak constraint pivots through the huge coefficient, which
shrinks the second constraint's marker coefficient to `5e-9 < eps` in the
substituted rows; the first marker is later erased entirely, so removal in
reverse admission order fails. -/

/-- Required constraint `x ≥ 0`. -/
def revCn1 : Constraint := ⟨10, Operator.ge, ⟨0, [(xVar, 1)]⟩, Strength.required⟩

/-- Required constraint `2e8·x - 1 ≤ 0`. -/
def revCn2 : Constraint := ⟨11, Operator.le, ⟨-1, [(xVar, 200000000)]⟩, Strength.required⟩

/-- Weak constraint `x - 5 ≥ 0`. -/
def revCn3 : Constraint := ⟨12, Operator.ge, ⟨-5, [(xVar, 1)]⟩, Strength.weak⟩

/-- State after admitting `revCn1`. -/
def revS1 : State := resState (addConstraint revCn1 50 initState)

/-- State after admitting `revCn1, revCn2`. -/
def revS2 : State := resState (addConstraint revCn2 50 revS1)

/-- State after admitting all three constraints of the C7 scenario. -/
def revS3 : State := resState (addConstraint revCn3 50 revS2)

/-- State after removing `revCn3` (reverse admission order, first step). -/
def revS4 : State := resState (removeConstraint revCn3 50 revS3)

/-- State after removing `revCn3, revCn2`. -/
def revS5 : State := resState (removeConstraint revCn2 50 revS4)

/-- State left behind by the failing removal of `revCn1`. -/
def revS6 : State := resState (removeConstraint revCn1 50 revS5)

/- Concrete scenario for claim C3: `x ≥ 10` required admitted, then
`x ≤ 5` required is rejected through the artificial-variable path —
which has already rewritten the tableau by the time it fails. -/

/-- Required constraint `x ≥ 10` (C3 scenario). -/
def abortCn1 : Constraint := ⟨20, Operator.ge, ⟨-10, [(xVar, 1)]⟩, Strength.required⟩

/-- Required constraint `x ≤ 5` (C3 scenario), unsatisfiable with
`abortCn1`. -/
def abortCn2 : Constraint := ⟨21, Operator.le, ⟨-5, [(xVar, 1)]⟩, Strength.required⟩

/-- State after admitting `abortCn1`. -/
def abortS1 : State := resState (addConstraint abortCn1 50 initState)

/-- State left behind by the failing `addConstraint abortCn2`. -/
def abortS2 : State := resState (addConstraint abortCn2 50 abortS1)

/- Concrete scenario for the amended claim C3's witness (spec scenario S3):
`x = 10` required admitted, then `x = 20` required is rejected at the
all-dummies check, before any visible mutation. -/

/-- Required constraint `x = 10` (S3 scenario). -/
def eqCn1 : Constraint := ⟨30, Operator.eq, ⟨-10, [(xVar, 1)]⟩, Strength.required⟩

/-- Required constraint `x = 20` (S3 scenario), conflicting with `eqCn1`. -/
def eqCn2 : Constraint := ⟨31, Operator.eq, ⟨-20, [(xVar, 1)]⟩, Strength.required⟩

/-- State after admitting `eqCn1`. -/
def eqS1 : State := resState (addConstraint eqCn1 50 initState)

/-- State left behind by the failing `addConstraint eqCn2`. -/
def eqS2 : State := resState (addConstraint eqCn2 50 eqS1)

/-- A slack symbol used by the claim C5 and C6 inputs. -/
def slackSym0 : Sym := ⟨SymType.slack, 0⟩

/-- A row holding `slackSym0` with coefficient 5 (claim C5 input). -/
def c5Row : Row := ⟨0, [(slackSym0, 5)]⟩

/-- A tableau for claim C6: two restricted (slack-keyed) basic rows both
holding the marker `slackSym0` with coefficient -1, constants 1 and 2. -/
def c6State : State :=
  { initState with
    rows := [(⟨SymType.slack, 1⟩, ⟨1, [(slackSym0, -1)]⟩),
             (⟨SymType.slack, 2⟩, ⟨2, [(slackSym0, -1)]⟩)] }

end Kiwi

attribute [local semireducible] Rat.add Rat.mul Rat.inv Rat.sub Rat.ofScientific

namespace Kiwi

/-- Claim C1.  The code violates the claim: after the three successful
`addConstraint` calls of the C1/C2 scenario, `updateVariables` publishes
values under which the admitted required constraint `x ≥ 10` evaluates to
`-0.99`, far outside epsilon of satisfying its relation.  (The artificial
admission of `feasCn3` accepts a `9.9e-9` residue and the pivot through
the `1e-8` cell amplifies it.) -/
theorem C1_required_constraint_violated :
    resOk (addConstraint feasCn1 50 initState) = true ∧
    resOk (addConstraint feasCn2 50 feasS1) = true ∧
    resOk (addConstraint feasCn3 50 feasS2) = true ∧
    (findBy Constraint.id feasCn1.id feasS3.constraints).isSome = true ∧
    feasCn1.strength = Strength.required ∧
    lhsValue feasCn1.expression (publishedVals feasS3) = -(99 / 100) ∧
    satisfiesRelation feasCn1.operator
      (lhsValue feasCn1.expression (publishedVals feasS3)) = false := by
  decide

/-- Claim C2.  The code violates the claim: the third `addConstraint` of
the C1/C2 scenario returns normally, yet leaves a basic row with a
non-external (slack) basic symbol whose constant is `-0.99 < -eps`; the
feasibility invariant is not restored before returning. -/
theorem C2_feasibility_not_restored :
    resOk (addConstraint feasCn1 50 initState) = true ∧
    resOk (addConstraint feasCn2 50 feasS1) = true ∧
    resOk (addConstraint feasCn3 50 feasS2) = true ∧
    hasInfeasibleRow feasS3 = true ∧
    (findBy Sym.id 1 feasS3.rows).map Row.constant = some (-(99 / 100)) := by
  decide

/-- Claim C3 counterexample.  `addConstraint abortCn2` fails with the
typed UnsatisfiableConstraint error through the artificial-variable path,
and the rows map it leaves behind differs from the rows map before the
call: the visible mutation has committed. -/
theorem C3_counterexample_artificial_mutates :
    addConstraint abortCn2 50 abortS1 = Res.err Err.unsatisfiableConstraint abortS2 ∧
    abortS2.rows ≠ abortS1.rows := by
  decide

/-- Claim C4.  The code violates the claim: `parseArgs` stores term
coefficients with `setDefault`, which keeps the first binding instead of
summing, so `Expression(x, [2, x])` yields coefficient 1 for x while the
permuted argument list `Expression([2, x], x)` yields coefficient 2 —
shared variables are not merged by summation and the result depends on
argument order, not only on the bag of terms. -/
theorem C4_parseArgs_drops_duplicates :
    parseArgs [ExprArg.var xVar, ExprArg.pairVar 2 xVar] = ⟨0, [(xVar, 1)]⟩ ∧
    parseArgs [ExprArg.pairVar 2 xVar, ExprArg.var xVar] = ⟨0, [(xVar, 2)]⟩ := by
  decide

/-- Claim C5.  The refactored row.ts `insertISymbol` violates the claim
(and its own doc comment): inserting coefficient 3 into a row where the
symbol already holds 5 leaves 5 unchanged instead of producing 8.  The
original implementation (solver.ts:1639-1644) produces 8 as the claim
states. -/
theorem C5_insertSymbol_rowts_no_accumulate :
    (c5Row.insertSymbolRowTs slackSym0 3).coefficientFor slackSym0 = 5 ∧
    (c5Row.insertSymbol slackSym0 3).coefficientFor slackSym0 = 8 := by
  decide

/-- Claim C6.  The refactored `_getMarkerLeavingISymbol`
(solver.ts:619-643) violates the claim (and its own doc comment): on two
restricted rows with marker coefficient -1 and constants 1 and 2 it
computes the tier-1 ratio as `|constant|/c` (giving -1 and -2) and so
selects the row with constant 2, while the documented rule — smallest
`-constant/coefficient`, ratios 1 and 2 — selects the row with constant 1,
as the original implementation (solver.ts:1360-1400) does. -/
theorem C6_markerLeaving_v1_wrong_tier1 :
    getMarkerLeavingV1 slackSym0 c6State = ⟨SymType.slack, 2⟩ ∧
    getMarkerLeaving slackSym0 c6State = ⟨SymType.slack, 1⟩ := by
  decide

/-- Claim C7.  The code violates the claim: in the C7 scenario the three
admissions and the first two removals (in reverse admission order) return
normally, but removing the last constraint fails with the internal
"failed to find leaving row" error — epsilon cell-erasure during the
earlier pivots deleted the marker from every row — and the solver is left
with a non-empty rows map instead of the empty state. -/
theorem C7_reverse_removal_fails :
    resOk (addConstraint revCn1 50 initState) = true ∧
    resOk (addConstraint revCn2 50 revS1) = true ∧
    resOk (addConstraint revCn3 50 revS2) = true ∧
    resOk (removeConstraint revCn3 50 revS3) = true ∧
    resOk (removeConstraint revCn2 50 revS4) = true ∧
    removeConstraint revCn1 50 revS5 = Res.err Err.failedLeavingRow revS6 ∧
    revS6.rows ≠ [] := by
  decide

/-- Claim C8 counterexample.  `create` is not injective on `[0,1000]³`:
the distinct in-range triples (1,0,0) and (0,1000,0) both map to 10⁶, so
the components are not reversibly decomposable on that domain. -/
theorem C8_counterexample_not_injective :
    Strength.create 1 0 0 1 = Strength.create 0 1000 0 1 ∧
    ((1 : ℚ), (0 : ℚ), (0 : ℚ)) ≠ ((0 : ℚ), (1000 : ℚ), (0 : ℚ)) := by
  constructor
  · norm_num [Strength.create]
  · simp

/-- The clipped weighted component of `Strength.create` collapses to the
identity on in-range inputs. -/
theorem strength_component_id (a : ℚ) (h0 : 0 ≤ a) (h1 : a ≤ 1000) :
    max 0 (min 1000 (a * 1)) = a := by
  rw [mul_one, min_eq_right h1, max_eq_right h0]

/-- On `[0,1000]³` with weight 1, `create` is the plain base-1000
combination. -/
theorem create_in_range (a b c : ℚ) (h0a : 0 ≤ a) (h1a : a ≤ 1000)
    (h0b : 0 ≤ b) (h1b : b ≤ 1000) (h0c : 0 ≤ c) (h1c : c ≤ 1000) :
    Strength.create a b c 1 = a * 1000000 + b * 1000 + c := by
  unfold Strength.create
  rw [strength_component_id a h0a h1a, strength_component_id b h0b h1b,
    strength_component_id c h0c h1c]

/-- The numeric value of `Strength.required`. -/
theorem required_value : Strength.required = 1001001000 := by
  norm_num [Strength.required, Strength.create]

/-- Claim C8, amended.  The claim's value formula and the `clip`
round-trip hold on all of `[0,1000]³` (weight 1), but injectivity only
holds once the boundary value 1000 is excluded: `create` is injective on
natural-number triples in `[0,999]³` (the counterexample
`create(1,0,0) = create(0,1000,0)` shows a boundary component of 1000
collides with the next digit). -/
theorem C8_create_roundtrip_amended :
    (∀ a b c : ℚ, 0 ≤ a → a ≤ 1000 → 0 ≤ b → b ≤ 1000 → 0 ≤ c → c ≤ 1000 →
      Strength.create a b c 1 = a * 1000000 + b * 1000 + c ∧
      Strength.clip (Strength.create a b c 1) = Strength.create a b c 1) ∧
    (∀ a b c a2 b2 c2 : ℕ, a ≤ 999 → b ≤ 999 → c ≤ 999 →
      a2 ≤ 999 → b2 ≤ 999 → c2 ≤ 999 →
      Strength.create a b c 1 = Strength.create a2 b2 c2 1 →
      a = a2 ∧ b = b2 ∧ c = c2) := by
  constructor
  · intro a b c h0a h1a h0b h1b h0c h1c
    have hv := create_in_range a b c h0a h1a h0b h1b h0c h1c
    refine ⟨hv, ?_⟩
    have hub : Strength.create a b c 1 ≤ Strength.required := by
      rw [hv, required_value]
      have ha : a * 1000000 ≤ 1000 * 1000000 :=
        mul_le_mul_of_nonneg_right h1a (by norm_num)
      have hb : b * 1000 ≤ 1000 * 1000 :=
        mul_le_mul_of_nonneg_right h1b (by norm_num)
      linarith
    have hlb : 0 ≤ Strength.create a b c 1 := by
      rw [hv]
      have ha : 0 ≤ a * 1000000 := by positivity
      have hb : 0 ≤ b * 1000 := by positivity
      linarith
    unfold Strength.clip
    rw [min_eq_right hub, max_eq_right hlb]
  · intro a b c a2 b2 c2 h1a h1b h1c h1a2 h1b2 h1c2 heq
    have cast1000 : ∀ n : ℕ, n ≤ 999 → ((n : ℚ) ≤ 1000) := by
      intro n hn
      exact_mod_cast le_trans hn (by norm_num)
    rw [create_in_range (a : ℚ) (b : ℚ) (c : ℚ) (Nat.cast_nonneg a) (cast1000 a h1a)
        (Nat.cast_nonneg b) (cast1000 b h1b) (Nat.cast_nonneg c) (cast1000 c h1c),
      create_in_range (a2 : ℚ) (b2 : ℚ) (c2 : ℚ) (Nat.cast_nonneg a2) (cast1000 a2 h1a2)
        (Nat.cast_nonneg b2) (cast1000 b2 h1b2) (Nat.cast_nonneg c2) (cast1000 c2 h1c2)] at heq
    have hnat : a * 1000000 + b * 1000 + c = a2 * 1000000 + b2 * 1000 + c2 := by
      exact_mod_cast heq
    refine ⟨?_, ?_, ?_⟩ <;> omega

/-- Witness for the amended claim C8 at concrete inputs: the value formula
and round-trip at (2,3,4), and injectivity at (5,6,7) against itself. -/
theorem C8_create_roundtrip_witness :
    Strength.create 2 3 4 1 = 2003004 ∧
    Strength.clip (Strength.create 2 3 4 1) = Strength.create 2 3 4 1 ∧
    ((5 : ℕ) = 5 ∧ (6 : ℕ) = 6 ∧ (7 : ℕ) = 7) := by
  have h := C8_create_roundtrip_amended.1 2 3 4 (by norm_num) (by norm_num)
    (by norm_num) (by norm_num) (by norm_num) (by norm_num)
  have h2 := C8_create_roundtrip_amended.2 5 6 7 5 6 7 (by norm_num) (by norm_num)
    (by norm_num) (by norm_num) (by norm_num) (by norm_num) rfl
  exact ⟨h.1.trans (by norm_num), h.2, h2⟩

/-- Left fold of addition starting from `x` is `x` plus the sum. -/
theorem foldl_add_init (x : ℚ) (xs : List ℚ) :
    xs.foldl (· + ·) x = x + xs.sum := by
  induction xs generalizing x with
  | nil => simp
  | cons y ys ih => rw [List.foldl_cons, ih, List.sum_cons]; ring

/-- Claim C10.  The `value` getter of an Expression succeeds exactly on
expressions with at least one term, returning the constant plus the sum of
`variable value × coefficient` over the terms; on a term-free expression
(`isConstant()` true) it fails (TypeError from `reduce` on an empty
array) instead of returning the constant. -/
theorem C10_value_getter (e : Expression) (vals : ℤ → ℚ) :
    (e.isConstant = false →
      e.value vals = some (e.constant + (e.terms.map fun p => vals p.1.id * p.2).sum)) ∧
    (e.isConstant = true → e.value vals = none) := by
  unfold Expression.isConstant Expression.value
  cases hte : e.terms with
  | nil => exact ⟨fun h => by simp at h, fun _ => rfl⟩
  | cons t ts =>
    constructor
    · intro _
      simp only [List.map_cons, List.sum_cons, foldl_add_init]
    · intro h
      simp at h

/-- Witness for claim C10 at concrete inputs: a one-term expression
evaluates to constant plus product, and a term-free expression fails. -/
theorem C10_value_getter_witness :
    Expression.value ⟨5, [(⟨0⟩, 2)]⟩ (fun _ => 7) = some 19 ∧
    Expression.value ⟨5, []⟩ (fun _ => 7) = none := by
  constructor
  · have h := (C10_value_getter ⟨5, [(⟨0⟩, 2)]⟩ (fun _ => 7)).1 rfl
    rw [h]; norm_num
  · exact (C10_value_getter ⟨5, []⟩ (fun _ => 7)).2 rfl

/-- Claim C9.  The refactored row.ts `allDummies` violates the claim: on a
row with no cells it maps to an empty array and calls `reduce` with no
initial value, which throws a TypeError (modelled as `none`) instead of
returning true; on non-empty rows it conjoins the cell tests.  The
original implementation (solver.ts:1603-1612) is total and returns true on
the empty row as the claim states. -/
theorem C9_allDummies_rowts_crashes_on_empty :
    Row.allDummiesRowTs ⟨0, []⟩ = none ∧
    Row.allDummies ⟨0, []⟩ = true ∧
    Row.allDummiesRowTs ⟨0, [(⟨SymType.dummy, 0⟩, 1)]⟩ = some true ∧
    Row.allDummiesRowTs ⟨0, [(slackSym0, 1)]⟩ = some false := by
  decide

theorem optimize_err_benign (t : OptTarget) :
    ∀ (fuel : ℕ) (s : State) (e : Err) (s2 : State),
      optimize t fuel s = Res.err e s2 → benignErr e := by
  intro fuel
  induction fuel with
  | zero =>
    intro s e s2 h
    simp only [optimize] at h
    injection h with h1 _
    exact Or.inl h1.symm
  | succ n ih =>
    intro s e s2 h
    simp only [optimize] at h
    split at h
    · injection h with h1 _
      exact Or.inr (Or.inl h1.symm)
    · split at h
      · exact Res.noConfusion h
      · split at h
        · injection h with h1 _
          exact Or.inr (Or.inr h1.symm)
        · split at h
          · injection h with h1 _
            exact Or.inr (Or.inl h1.symm)
          · split at h
            · injection h with h1 _
              exact Or.inr (Or.inl h1.symm)
            · exact ih _ _ _ h


theorem afterSubject_err_crash (row : Row) (subj : Sym) (s : State) (e : Err) (s2 : State)
    (h : afterSubject row subj s = Res.err e s2) : e = Err.jsCrash := by
  simp only [afterSubject] at h
  split at h
  · injection h with h1 _
    exact h1.symm
  · exact Res.noConfusion h

theorem addWithArtificial_err_benign (row : Row) (fuel : ℕ) (s : State) (e : Err) (s2 : State)
    (h : addWithArtificial row fuel s = Res.err e s2) : benignErr e := by
  simp only [addWithArtificial] at h
  split at h
  · injection h with h1 _
    subst h1
    exact optimize_err_benign _ _ _ _ _ (by assumption)
  · split at h
    · injection h with h1 _
      exact Or.inr (Or.inl h1.symm)
    · split at h
      · exact Res.noConfusion h
      · split at h
        · exact Res.noConfusion h
        · split at h
          · exact Res.noConfusion h
          · split at h
            · injection h with h1 _
              exact Or.inr (Or.inl h1.symm)
            · exact Res.noConfusion h

theorem finishAdd_err (cn : Constraint) (tag : Tag) (fuel : ℕ) (r : Res Unit)
    (e : Err) (s2 : State) (h : finishAdd cn tag fuel r = Res.err e s2) :
    (∃ s0, r = Res.err e s0) ∨ benignErr e := by
  match r with
  | Res.err e0 s0 =>
    simp only [finishAdd] at h
    injection h with h1 h2
    exact Or.inl ⟨s0, by rw [h1]⟩
  | Res.ok _ s0 =>
    simp only [finishAdd] at h
    exact Or.inr (optimize_err_benign _ _ _ _ _ h)


theorem getVarSymbol_pre (v : Variable) (s : State) :
    ((getVarSymbol v s).2).rows = s.rows ∧
    ((getVarSymbol v s).2).objective = s.objective ∧
    ((getVarSymbol v s).2).constraints = s.constraints := by
  simp only [getVarSymbol, makeSymbol]
  split <;> simp

theorem buildTerm_pre (acc : Row × State) (p : Variable × ℚ) :
    ((buildTerm acc p).2).rows = acc.2.rows ∧
    ((buildTerm acc p).2).objective = acc.2.objective ∧
    ((buildTerm acc p).2).constraints = acc.2.constraints := by
  simp only [buildTerm]
  split
  · exact ⟨rfl, rfl, rfl⟩
  · have h := getVarSymbol_pre p.1 acc.2
    split
    · exact h
    · exact h

theorem buildLoop_pre (ts : List (Variable × ℚ)) :
    ∀ (acc : Row × State),
      ((ts.foldl buildTerm acc).2).rows = acc.2.rows ∧
      ((ts.foldl buildTerm acc).2).objective = acc.2.objective ∧
      ((ts.foldl buildTerm acc).2).constraints = acc.2.constraints := by
  induction ts with
  | nil => intro acc; simp
  | cons hd tl ih =>
    intro acc
    rw [List.foldl_cons]
    obtain ⟨h1, h2, h3⟩ := ih (buildTerm acc hd)
    obtain ⟨g1, g2, g3⟩ := buildTerm_pre acc hd
    exact ⟨h1.trans g1, h2.trans g2, h3.trans g3⟩

theorem createRow_pre (cn : Constraint) (s : State) :
    (createRow cn s).1.rows = s.rows ∧
    (createRow cn s).1.constraints = s.constraints ∧
    (cn.strength = Strength.required → (createRow cn s).1.objective = s.objective) := by
  obtain ⟨h1, h2, h3⟩ := buildLoop_pre cn.expression.terms (⟨cn.expression.constant, []⟩, s)
  simp only [createRow]
  split <;>
  · simp only [makeSymbol]
    split
    · refine ⟨h1, h3, fun hreq => ?_⟩
      rename_i hlt
      rw [hreq] at hlt
      exact absurd hlt (lt_irrefl _)
    · exact ⟨h1, h3, fun _ => h2⟩


theorem createRow_marker_valid (cn : Constraint) (s : State) :
    (createRow cn s).2.2.marker.type ≠ SymType.invalid := by
  simp only [createRow, makeSymbol]
  split <;> split <;> simp

theorem addConstraint_err_cases (cn : Constraint) (fuel : ℕ) (s : State) (e : Err) (s2 : State)
    (h : addConstraint cn fuel s = Res.err e s2) :
    (e = Err.duplicateConstraint ∧ s2 = s) ∨
    (e = Err.unsatisfiableConstraint ∧ s2 = (createRow cn s).1 ∧
      (createRow cn s).2.1.allDummies = true) ∨
    (e = Err.unsatisfiableConstraint ∧ (createRow cn s).2.1.allDummies = false) ∨
    benignErr e := by
  simp only [addConstraint] at h
  split at h
  · injection h with h1 h2
    exact Or.inl ⟨h1.symm, h2.symm⟩
  · split at h
    · injection h with h1 h2
      rename_i hcond
      exact Or.inr (Or.inl ⟨h1.symm, h2.symm, hcond.2.1⟩)
    · split at h
      · -- all-dummies fallback: the subject is the (always valid) marker
        split at h
        · rename_i hminv
          exact absurd hminv (createRow_marker_valid cn s)
        · rcases finishAdd_err _ _ _ _ _ _ h with ⟨s0, hr⟩ | hb
          · have hc := afterSubject_err_crash _ _ _ _ _ hr
            exact Or.inr (Or.inr (Or.inr (Or.inr (Or.inl hc))))
          · exact Or.inr (Or.inr (Or.inr hb))
      · -- no fallback: the subject is chooseSubject's answer
        split at h
        · -- invalid subject: the artificial-variable path
          split at h
          · injection h with h1 _
            subst h1
            exact Or.inr (Or.inr (Or.inr (addWithArtificial_err_benign _ _ _ _ _ (by assumption))))
          · split at h
            · rcases finishAdd_err _ _ _ _ _ _ h with ⟨s0, hr⟩ | hb
              · exact Res.noConfusion hr
              · exact Or.inr (Or.inr (Or.inr hb))
            · injection h with h1 _
              refine Or.inr (Or.inr (Or.inl ⟨h1.symm, ?_⟩))
              cases hd : (createRow cn s).2.1.allDummies
              · rfl
              · exfalso
                simp_all
        · rcases finishAdd_err _ _ _ _ _ _ h with ⟨s0, hr⟩ | hb
          · have hc := afterSubject_err_crash _ _ _ _ _ hr
            exact Or.inr (Or.inr (Or.inr (Or.inr (Or.inl hc))))
          · exact Or.inr (Or.inr (Or.inr hb))


/-- Claim C3, amended.  Failures raised outside the artificial-variable
admission path commit no visible mutation: a DuplicateConstraint failure
leaves the whole state unchanged, and an UnsatisfiableConstraint failure
raised at the all-dummies check (the non-artificial rejection, which for a
required constraint is the only other rejection site) leaves the rows map,
the objective row, and the constraints registry unchanged — only the
`vars` symbol allocations and the id counter may advance.  The
counterexample shows the artificial path itself does mutate the tableau
before failing, so the claim cannot cover it. -/
theorem C3_failures_before_mutation_amended :
    ∀ (s : State) (cn : Constraint) (fuel : ℕ) (e : Err) (s2 : State),
      addConstraint cn fuel s = Res.err e s2 →
      (e = Err.duplicateConstraint → s2 = s) ∧
      (e = Err.unsatisfiableConstraint → (createRow cn s).2.1.allDummies = true →
        cn.strength = Strength.required →
        s2.rows = s.rows ∧ s2.objective = s.objective ∧ s2.constraints = s.constraints) := by
  intro s cn fuel e s2 h
  rcases addConstraint_err_cases cn fuel s e s2 h with ⟨he, hs⟩ | ⟨he, hs, hd⟩ | ⟨he, hd⟩ | hb
  · refine ⟨fun _ => hs, fun hu _ _ => ?_⟩
    rw [he] at hu
    exact Err.noConfusion hu
  · refine ⟨fun hdup => ?_, fun _ _ hreq => ?_⟩
    · rw [he] at hdup
      exact Err.noConfusion hdup
    · obtain ⟨p1, p2, p3⟩ := createRow_pre cn s
      rw [hs]
      exact ⟨p1, p3 hreq, p2⟩
  · refine ⟨fun hdup => ?_, fun _ hdum _ => ?_⟩
    · rw [he] at hdup
      exact Err.noConfusion hdup
    · rw [hdum] at hd
      exact Bool.noConfusion hd
  · constructor
    · intro hdup
      rcases hb with h1 | h1 | h1 <;> (rw [hdup] at h1; exact Err.noConfusion h1)
    · intro hu _ _
      rcases hb with h1 | h1 | h1 <;> (rw [hu] at h1; exact Err.noConfusion h1)

/-- Witness for the amended claim C3: the spec's S3 scenario (`x = 10`
then `x = 20`, both required) fails at the all-dummies check and leaves
rows, objective, and constraints untouched. -/
theorem C3_failures_before_mutation_witness :
    addConstraint eqCn2 50 eqS1 = Res.err Err.unsatisfiableConstraint eqS2 ∧
    eqS2.rows = eqS1.rows ∧ eqS2.objective = eqS1.objective ∧
    eqS2.constraints = eqS1.constraints := by
  have heq : addConstraint eqCn2 50 eqS1 = Res.err Err.unsatisfiableConstraint eqS2 := by decide
  have h := (C3_failures_before_mutation_amended eqS1 eqCn2 50
    Err.unsatisfiableConstraint eqS2 heq).2 rfl (by decide) (by decide)
  exact ⟨heq, h⟩

end Kiwi
